import Mathlib

/-!
Shallow embedding of `src/NewMembers/joining.py` (class `GuildEventHandler`):
the per-user DM rate limiter, the per-guild metrics cache, and the
member-join gatekeeper.  Timestamps are modelled as `Int` seconds since an
arbitrary epoch; Python `timedelta.days` is floor division of the total
seconds by 86400, and `timedelta.seconds` is the floor remainder modulo
86400, so we use `Int.fdiv` / `Int.fmod` throughout.
-/

namespace Codex

/-- One hour in seconds (`timedelta(hours=1)`). -/
def hourSecs : Int := 3600

/-- One day in seconds. -/
def daySecs : Int := 86400

/-- Python `account_age.days` for `account_age = now - created_at`:
Python `timedelta.days` floors. -/
def accountAgeDays (now createdAt : Int) : Int :=
  (now - createdAt).fdiv daySecs

/-- The rate limit configuration dictionary `self.rate_limits`
(joining.py lines 58-63). -/
structure RateLimits where
  new_account_days : Int
  max_dms_per_hour : Nat
  max_dms_per_day : Nat
  block_duration_hours : Int
  deriving Repr, DecidableEq

/-- The values assigned in `__init__`: 30 days, 2 DMs/hour, 5 DMs/day,
24-hour block. -/
def defaultRateLimits : RateLimits :=
  { new_account_days := 30
    max_dms_per_hour := 2
    max_dms_per_day := 5
    block_duration_hours := 24 }

/-- One value of `self.dm_rate_limits[user_id]` (joining.py lines 22-28). -/
structure RateLimitEntry where
  count : Nat
  last_reset : Int
  blocked_until : Option Int
  total_attempts : Nat
  first_attempt : Option Int
  deriving Repr, DecidableEq

/-- The defaultdict factory: a fresh entry created at time `now`
(`last_reset = datetime.now(timezone.utc)` is evaluated at creation). -/
def defaultEntry (now : Int) : RateLimitEntry :=
  { count := 0
    last_reset := now
    blocked_until := none
    total_attempts := 0
    first_attempt := none }

/-- The store `self.dm_rate_limits`: user id -> entry; `none` for users with no entry
(the defaultdict creates one on first access). -/
def RLState : Type := Int → Option RateLimitEntry

/-- The empty tracker (a freshly-constructed handler). -/
def emptyRL : RLState := fun _ => none

/-- Store an entry under a user id (dict assignment / in-place mutation of
the entry obtained from the defaultdict). -/
def setEntry (st : RLState) (uid : Int) (e : RateLimitEntry) : RLState :=
  fun u => if u = uid then some e else st u

/-- The deletion `del self.dm_rate_limits[member.id]` (handle_member_remove,
joining.py lines 458-459).  Deleting an absent key is also modelled
(the source guards with `if member.id in self.dm_rate_limits`). -/
def cleanupRateLimit (st : RLState) (uid : Int) : RLState :=
  fun u => if u = uid then none else st u

/-- A member as the rate limiter sees it: an id and the account creation
time (`member.id`, `member.created_at`). -/
structure Member where
  id : Int
  createdAt : Int
  deriving Repr, DecidableEq

/-- Truthiness test `user_limits.get('blocked_until') and now < user_limits['blocked_until']`:
`blocked_until` is either `None` or a datetime (always truthy). -/
def blockedActive (blocked_until : Option Int) (now : Int) : Bool :=
  match blocked_until with
  | none => false
  | some b => now < b

/-- The reason string built on the blocked branch:
`f"Blocked for {remaining.seconds // 3600}h {(remaining.seconds % 3600) // 60}m"`
where `remaining = blocked_until - now` and `.seconds` is the floor
remainder of the timedelta modulo one day. -/
def blockedReason (b now : Int) : String :=
  let secs := (b - now).fmod daySecs
  let hh := secs.fdiv 3600
  let mm := (secs.fmod 3600).fdiv 60
  "Blocked for " ++ toString hh ++ "h " ++ toString mm ++ "m"

/-- Method `GuildEventHandler.can_send_dm` (joining.py lines 190-227), as a pure
function of the configuration, the tracker state, the member and the
current time.  Returns the `(allowed, reason)` pair and the new tracker
state (the source mutates `self.dm_rate_limits[member.id]` in place). -/
def canSendDm (rl : RateLimits) (st : RLState) (m : Member) (now : Int) :
    (Bool × String) × RLState :=
  if rl.new_account_days ≤ accountAgeDays now m.createdAt then
    ((true, "Account old enough"), st)
  else
    let e := (st m.id).getD (defaultEntry now)
    let e := if e.first_attempt = none then { e with first_attempt := some now } else e
    let e := { e with total_attempts := e.total_attempts + 1 }
    if blockedActive e.blocked_until now then
      ((false, blockedReason (e.blocked_until.getD 0) now), setEntry st m.id e)
    else
      let e := if hourSecs ≤ now - e.last_reset then
        { e with count := 0, last_reset := now, blocked_until := none }
      else e
      if rl.max_dms_per_hour ≤ e.count then
        let e := { e with
          blocked_until := some (now + rl.block_duration_hours * hourSecs) }
        ((false, "Rate limit exceeded"), setEntry st m.id e)
      else
        ((true, "Within limits"), setEntry st m.id e)

/-- The rate-limit part of `GuildEventHandler.record_dm_sent`
(joining.py lines 229-232): `self.dm_rate_limits[member.id]['count'] += 1`.
The defaultdict creates a fresh entry (timestamped `now`) if absent.
The guild-metrics side effect (`update_guild_metrics` with event type
`"dm_sent"`) is modelled separately on the guild state. -/
def recordDmSent (st : RLState) (m : Member) (now : Int) : RLState :=
  let e := (st m.id).getD (defaultEntry now)
  setEntry st m.id { e with count := e.count + 1 }

/-- A sequence of `can_send_dm` calls for the same member at successive
times (the spec's "simulate repeated events"): returns the list of
`(allowed, reason)` results and the final tracker state. -/
def canSendMany (rl : RateLimits) (st : RLState) (m : Member) :
    List Int → List (Bool × String) × RLState
  | [] => ([], st)
  | t :: ts =>
    let r := canSendDm rl st m t
    let rest := canSendMany rl r.2 m ts
    (r.1 :: rest.1, rest.2)

/-! ## Guild metrics cache -/

/-- The `security_metrics` sub-dictionary (joining.py lines 50-54). -/
structure SecurityMetrics where
  suspicious_joins : Nat
  account_age_violations : Nat
  rapid_joins : Nat
  deriving Repr, DecidableEq

/-- One value of `self.guild_cache[guild_id]` (joining.py lines 31-55).
`join_patterns` is three defaultdict(int) histograms; `last_activity`
stores `now.isoformat()`, modelled as the timestamp itself.
`member_retention_rate` (a float only ever holding its default 0.0) is
modelled as a rational. -/
structure GuildMetrics where
  member_count : Int
  bot_count : Nat
  online_count : Nat
  new_member_joins_today : Nat
  kicks_today : Nat
  last_activity : Option Int
  voice_channels_active : Nat
  recent_messages : Nat
  moderation_actions : List String
  member_retention_rate : Rat
  popular_channels : List (String × Nat)
  role_distribution : String → Nat
  timezone_distribution : String → Nat
  join_patterns_hourly : Nat → Nat
  join_patterns_daily : String → Nat
  join_patterns_weekly : String → Nat
  security_metrics : SecurityMetrics

/-- The defaultdict factory for guild cache entries. -/
def defaultGuildMetrics : GuildMetrics :=
  { member_count := 0
    bot_count := 0
    online_count := 0
    new_member_joins_today := 0
    kicks_today := 0
    last_activity := none
    voice_channels_active := 0
    recent_messages := 0
    moderation_actions := []
    member_retention_rate := 0
    popular_channels := []
    role_distribution := fun _ => 0
    timezone_distribution := fun _ => 0
    join_patterns_hourly := fun _ => 0
    join_patterns_daily := fun _ => 0
    join_patterns_weekly := fun _ => 0
    security_metrics := { suspicious_joins := 0, account_age_violations := 0, rapid_joins := 0 } }

/-- The store `self.guild_cache`: guild id -> metrics; `none` for guilds with no
entry yet. -/
def GState : Type := Int → Option GuildMetrics

/-- Store a guild's metrics entry. -/
def setGuild (gst : GState) (gid : Int) (cd : GuildMetrics) : GState :=
  fun g => if g = gid then some cd else gst g

/-- The guild object as the handler reads it: its id and the live
`guild.member_count` attribute at event time. -/
structure Guild where
  id : Int
  member_count : Int
  deriving Repr, DecidableEq

/-- The current wall-clock instant as the handler consumes it: the raw
timestamp `now`, plus `now.hour`, `now.strftime('%Y-%m-%d')` and
`now.strftime('%Y-W%U')`, the hour/day/week bucket keys computed by the
datetime library (an external collaborator). -/
structure TimeInfo where
  now : Int
  hour : Nat
  day : String
  week : String

/-- Method `GuildEventHandler.update_guild_metrics` (joining.py lines 121-163) as
a pure function on the in-memory guild cache.  `guild.member_count` is
read from the `Guild` argument; the `member` keyword argument is optional
(`kwargs.get('member')`).  The trailing best-effort database flush
(`cache_manager.cache_guild_info`) has no in-memory effect and is not
modelled; the surrounding try/except only logs. -/
def updateGuildMetrics (rl : RateLimits) (gst : GState) (g : Guild)
    (event_type : String) (t : TimeInfo) (mem : Option Member) : GState :=
  let cd := (gst g.id).getD defaultGuildMetrics
  let cd :=
    if event_type = "member_join" then
      let cd := { cd with
        new_member_joins_today := cd.new_member_joins_today + 1
        member_count := g.member_count
        join_patterns_hourly := fun h =>
          if h = t.hour then cd.join_patterns_hourly h + 1 else cd.join_patterns_hourly h
        join_patterns_daily := fun d =>
          if d = t.day then cd.join_patterns_daily d + 1 else cd.join_patterns_daily d
        join_patterns_weekly := fun w =>
          if w = t.week then cd.join_patterns_weekly w + 1 else cd.join_patterns_weekly w }
      let recent_joins := cd.join_patterns_hourly t.hour
      let cd :=
        if 10 < recent_joins then
          { cd with security_metrics :=
            { cd.security_metrics with
              rapid_joins := cd.security_metrics.rapid_joins + 1 } }
        else cd
      match mem with
      | some m =>
        if accountAgeDays t.now m.createdAt < rl.new_account_days then
          { cd with security_metrics :=
            { cd.security_metrics with
              account_age_violations := cd.security_metrics.account_age_violations + 1 } }
        else cd
      | none => cd
    else if event_type = "member_remove" then
      { cd with member_count := g.member_count }
    else if event_type = "member_kick" then
      { cd with kicks_today := cd.kicks_today + 1 }
    else cd
  setGuild gst g.id { cd with last_activity := some t.now }

/-- The externally-computed snapshot values `initialize_guild_cache` scans
for: member/bot/online counts, active voice channels, the role
distribution and the top-5 channel activity list (joining.py lines 72-103,
all derived from the Discord guild object). -/
structure GuildSnapshot where
  guild : Guild
  bot_count : Nat
  online_count : Nat
  voice_channels_active : Nat
  role_distribution : String → Nat
  popular_channels : List (String × Nat)

/-- Method `GuildEventHandler.initialize_guild_cache` (joining.py lines 65-119):
overwrites the basic counters and today's counters, resets the security
metrics, and leaves `join_patterns` untouched.  The body is wrapped in
try/except that only logs. -/
def initializeGuildCache (gst : GState) (snap : GuildSnapshot) (t : TimeInfo) : GState :=
  let cd := (gst snap.guild.id).getD defaultGuildMetrics
  setGuild gst snap.guild.id { cd with
    member_count := snap.guild.member_count
    bot_count := snap.bot_count
    online_count := snap.online_count
    voice_channels_active := snap.voice_channels_active
    role_distribution := snap.role_distribution
    popular_channels := snap.popular_channels
    new_member_joins_today := 0
    kicks_today := 0
    last_activity := some t.now
    security_metrics := { suspicious_joins := 0, account_age_violations := 0, rapid_joins := 0 } }

/-! ## The member-join gatekeeper -/

/-- Outcome of the external `member.send(...)` call: success, a
`discord.Forbidden`, or any other exception. -/
inductive DmOutcome
  | success
  | forbidden
  | error
  deriving Repr, DecidableEq

/-- Outcome of the external `member.kick(...)` call. -/
inductive KickOutcome
  | success
  | error
  deriving Repr, DecidableEq

/-- What one `handle_member_join` invocation did: which external actions it
attempted and the resulting in-memory states. -/
structure JoinResult where
  dmAttempted : Bool
  dmRecorded : Bool
  kickAttempted : Bool
  kickReason : Option String
  welcomeAttempted : Bool
  rlState : RLState
  gState : GState

/-- Method `GuildEventHandler.handle_member_join` (joining.py lines 244-309).
External call outcomes (`dmOut`, `kickOut`) and whether
`guild.get_channel(WELCOME_CHANNEL_ID)` finds a channel are inputs.
The initial `update_guild_metrics(guild, "member_join", ...)` call always
creates the guild's cache entry, so the subsequent
`if guild.id not in self.guild_cache` initialization branch never fires
and is modelled by the same (provably skipped) test.  `record_dm_sent` is
called only when the DM send succeeded; the kick block runs on the reject
path regardless of the notification outcome, and `member_kick` metrics are
updated only when the kick call itself succeeded. -/
def handleMemberJoin (rl : RateLimits) (rls : RLState) (gst : GState)
    (m : Member) (g : Guild) (t : TimeInfo) (snap : GuildSnapshot)
    (dmOut : DmOutcome) (kickOut : KickOutcome) (hasWelcomeChannel : Bool) :
    JoinResult :=
  let age := accountAgeDays t.now m.createdAt
  let gst := updateGuildMetrics rl gst g "member_join" t (some m)
  let gst := if (gst g.id).isNone then initializeGuildCache gst snap t else gst
  if age < 90 then
    let r := canSendDm rl rls m t.now
    let canDm := r.1.1
    let rls := r.2
    let dmRecorded := canDm && (dmOut = DmOutcome.success)
    let rls := if dmRecorded then recordDmSent rls m t.now else rls
    let gst := if dmRecorded then
        updateGuildMetrics rl gst g "dm_sent" t (some m)
      else gst
    let reason := "Account too new (" ++ toString age ++ " days old)"
    let gst := match kickOut with
      | KickOutcome.success => updateGuildMetrics rl gst g "member_kick" t (some m)
      | KickOutcome.error => gst
    { dmAttempted := canDm
      dmRecorded := dmRecorded
      kickAttempted := true
      kickReason := some reason
      welcomeAttempted := false
      rlState := rls
      gState := gst }
  else
    { dmAttempted := false
      dmRecorded := false
      kickAttempted := false
      kickReason := none
      welcomeAttempted := hasWelcomeChannel
      rlState := rls
      gState := gst }

/-- The in-memory effect of `GuildEventHandler.handle_member_remove`
(joining.py lines 450-467): update guild metrics for `"member_remove"`,
then delete the member's rate-limit entry.  The member-cache refresh is an
external best-effort call with no in-memory state here. -/
def handleMemberRemove (rl : RateLimits) (rls : RLState) (gst : GState)
    (m : Member) (g : Guild) (t : TimeInfo) : RLState × GState :=
  let gst := updateGuildMetrics rl gst g "member_remove" t (some m)
  let rls := cleanupRateLimit rls m.id
  (rls, gst)

/-! ## Helper lemmas -/

/-- Reading back the entry just stored. -/
lemma setEntry_self (st : RLState) (uid : Int) (e : RateLimitEntry) :
    setEntry st uid e uid = some e := by
  simp [setEntry]

/-- Frame fact: `can_send_dm` reads and writes only its caller's entry: two states
agreeing at `m.id` yield the same result and the same entry for `m.id`. -/
lemma canSendDm_congr (rl : RateLimits) (st st' : RLState) (m : Member)
    (now : Int) (h : st m.id = st' m.id) :
    (canSendDm rl st m now).1 = (canSendDm rl st' m now).1 ∧
    (canSendDm rl st m now).2 m.id = (canSendDm rl st' m now).2 m.id := by
  unfold canSendDm
  rw [h]
  by_cases h1 : rl.new_account_days ≤ accountAgeDays now m.createdAt
  · simp [h1, h]
  · simp only [if_neg h1]
    by_cases h2 : ((st' m.id).getD (defaultEntry now)).first_attempt = none <;>
    by_cases h3 : blockedActive ((st' m.id).getD (defaultEntry now)).blocked_until now = true <;>
    by_cases h4 : hourSecs ≤ now - ((st' m.id).getD (defaultEntry now)).last_reset <;>
    simp [h2, h3, h4, setEntry] <;>
    split <;> simp [setEntry]

/-- Branch characterization: an under-threshold caller with an active
block is refused and the stored entry keeps the same `blocked_until`
(only `total_attempts` / `first_attempt` are touched). -/
lemma canSendDm_blocked_entry (rl : RateLimits) (st : RLState) (m : Member)
    (now : Int) (e : RateLimitEntry) (b : Int)
    (hage : accountAgeDays now m.createdAt < rl.new_account_days)
    (he : (st m.id).getD (defaultEntry now) = e)
    (hb : e.blocked_until = some b) (hlt : now < b) :
    canSendDm rl st m now =
      ((false, blockedReason b now),
        setEntry st m.id
          { e with
            total_attempts := e.total_attempts + 1
            first_attempt := if e.first_attempt = none then some now
              else e.first_attempt }) := by
  unfold canSendDm
  rw [if_neg (not_le.mpr hage), he]
  by_cases hfa : e.first_attempt = none <;>
    simp [hfa, blockedActive, hb, hlt]

/-- Branch characterization: an under-threshold caller with no active
block, inside the current window, at or over the hourly limit, is refused
with "Rate limit exceeded" and the stored entry is blocked for
`block_duration_hours`. -/
lemma canSendDm_limit_hit (rl : RateLimits) (st : RLState) (m : Member)
    (now : Int) (e : RateLimitEntry)
    (hage : accountAgeDays now m.createdAt < rl.new_account_days)
    (he : (st m.id).getD (defaultEntry now) = e)
    (hnb : blockedActive e.blocked_until now = false)
    (hwin : now - e.last_reset < hourSecs)
    (hcnt : rl.max_dms_per_hour ≤ e.count) :
    canSendDm rl st m now =
      ((false, "Rate limit exceeded"),
        setEntry st m.id
          { e with
            blocked_until := some (now + rl.block_duration_hours * hourSecs)
            total_attempts := e.total_attempts + 1
            first_attempt := if e.first_attempt = none then some now
              else e.first_attempt }) := by
  unfold canSendDm
  rw [if_neg (not_le.mpr hage), he]
  by_cases hfa : e.first_attempt = none <;>
    simp [hfa, hnb, not_le.mpr hwin, hcnt]

/-- While a user's entry carries a `blocked_until` still in the future at
every call time, every call in a sequence of checks is refused and the
block timestamp survives each call. -/
lemma canSendMany_blocked (m : Member) (b : Int) :
    ∀ (ts : List Int) (st : RLState) (e : RateLimitEntry),
      st m.id = some e → e.blocked_until = some b →
      (∀ t' ∈ ts, t' < b ∧
        accountAgeDays t' m.createdAt < defaultRateLimits.new_account_days) →
      ∀ p ∈ (canSendMany defaultRateLimits st m ts).1, p.1 = false
  | [], _, _, _, _, _ => by simp [canSendMany]
  | t :: ts, st, e, hst, hb, hts => by
    obtain ⟨⟨hlt, hage⟩, hts'⟩ := List.forall_mem_cons.mp hts
    have hstep := canSendDm_blocked_entry defaultRateLimits st m t e b hage
      (by rw [hst]; rfl) hb hlt
    intro p hp
    rw [canSendMany, hstep] at hp
    rcases List.mem_cons.mp hp with hp | hp
    · rw [hp]
    · exact canSendMany_blocked m b ts _
        { e with
          total_attempts := e.total_attempts + 1
          first_attempt := if e.first_attempt = none then some t
            else e.first_attempt }
        (by simp [setEntry]) hb hts' p hp

/-! ## C2 -/

/-- C2: for every member whose account age in days is at least
`new_account_days`, `can_send_dm` returns `(true, "Account old enough")`
and leaves the tracker state (any prior attempts, any block) untouched. -/
theorem C2_old_account_always_allowed (rl : RateLimits) (st : RLState)
    (m : Member) (now : Int)
    (h : rl.new_account_days ≤ accountAgeDays now m.createdAt) :
    canSendDm rl st m now = ((true, "Account old enough"), st) := by
  unfold canSendDm
  rw [if_pos h]

/-- Witness for C2 at a concrete input: a 100-day-old account whose entry
is blocked and far over the hourly count is still allowed. -/
theorem C2_witness :
    defaultRateLimits.new_account_days ≤ accountAgeDays (100 * daySecs) 0 ∧
    canSendDm defaultRateLimits
      (setEntry emptyRL 1
        { count := 99, last_reset := 0, blocked_until := some (200 * daySecs),
          total_attempts := 99, first_attempt := some 0 })
      { id := 1, createdAt := 0 } (100 * daySecs) =
      ((true, "Account old enough"),
        setEntry emptyRL 1
          { count := 99, last_reset := 0, blocked_until := some (200 * daySecs),
            total_attempts := 99, first_attempt := some 0 }) :=
  ⟨by decide,
   C2_old_account_always_allowed defaultRateLimits
     (setEntry emptyRL 1
       { count := 99, last_reset := 0, blocked_until := some (200 * daySecs),
         total_attempts := 99, first_attempt := some 0 })
     { id := 1, createdAt := 0 } (100 * daySecs) (by decide)⟩

/-! ## C4 -/

/-- C4 counterexample: `record_dm_sent` does not increment
`total_attempts`.  For a user whose entry has `total_attempts = 0`, the
entry after `record_dm_sent` still has `total_attempts = 0` (while `count`
went from 0 to 1), refuting "increments both attempt_count and
total_attempts by exactly one on every call". -/
theorem C4_counterexample :
    (recordDmSent (setEntry emptyRL 1 (defaultEntry 0)) { id := 1, createdAt := 0 } 50) 1 =
      some { count := 1, last_reset := 0, blocked_until := none,
             total_attempts := 0, first_attempt := none } := by
  decide

/-- C4 amended: `record_dm_sent` increments `count` (the hourly attempt
counter) by exactly one, unconditionally — no block or limit check — and
leaves every other field of the entry (including `total_attempts`)
unchanged; `total_attempts` is incremented by `can_send_dm` instead. -/
theorem C4_record_increments_count_only (st : RLState) (m : Member) (now : Int) :
    (recordDmSent st m now) m.id =
      some { (st m.id).getD (defaultEntry now) with
             count := ((st m.id).getD (defaultEntry now)).count + 1 } := by
  unfold recordDmSent
  simp [setEntry]

/-! ## C6 -/

/-- C6: deleting a user's rate-limit entry (the cleanup done on member
removal) and then calling `can_send_dm` behaves exactly like a first-ever
call on a fresh tracker: same `(allowed, reason)` result and the same
resulting entry for that user, i.e. all counters and timestamps restart
from the default initial state. -/
theorem C6_cleanup_then_check_is_fresh (rl : RateLimits) (st : RLState)
    (m : Member) (now : Int) :
    (canSendDm rl (cleanupRateLimit st m.id) m now).1 =
      (canSendDm rl emptyRL m now).1 ∧
    (canSendDm rl (cleanupRateLimit st m.id) m now).2 m.id =
      (canSendDm rl emptyRL m now).2 m.id :=
  canSendDm_congr rl (cleanupRateLimit st m.id) emptyRL m now (by
    simp [cleanupRateLimit, emptyRL])

/-! ## C1 -/

/-- C1: with the default configuration, for an under-threshold user whose
current-window entry has reached `max_dms_per_hour` recorded sends, the
next `can_send_dm` call returns `(false, "Rate limit exceeded")` and
stamps `blocked_until = now + 24h`; while an entry carries a future
`blocked_until`, every subsequent call in any sequence of checks returns
`false` (the block timestamp surviving each call, so the refusals last
until `blocked_until` elapses); and whenever `can_send_dm` refuses during
`handle_member_join`, no DM is attempted or recorded but the kick is still
attempted. -/
theorem C1_rate_limit_lockout (st : RLState) (m : Member) (now : Int)
    (e : RateLimitEntry) :
    (accountAgeDays now m.createdAt < defaultRateLimits.new_account_days →
      (st m.id).getD (defaultEntry now) = e →
      blockedActive e.blocked_until now = false →
      now - e.last_reset < hourSecs →
      defaultRateLimits.max_dms_per_hour ≤ e.count →
      canSendDm defaultRateLimits st m now =
        ((false, "Rate limit exceeded"),
          setEntry st m.id
            { e with
              blocked_until :=
                some (now + defaultRateLimits.block_duration_hours * hourSecs)
              total_attempts := e.total_attempts + 1
              first_attempt := if e.first_attempt = none then some now
                else e.first_attempt })) ∧
    (∀ (st' : RLState) (b : Int) (ts : List Int),
      st' m.id = some e → e.blocked_until = some b →
      (∀ t' ∈ ts, t' < b ∧
        accountAgeDays t' m.createdAt < defaultRateLimits.new_account_days) →
      ∀ p ∈ (canSendMany defaultRateLimits st' m ts).1, p.1 = false) ∧
    (∀ (rls : RLState) (gst : GState) (g : Guild) (t : TimeInfo)
        (snap : GuildSnapshot) (dmOut : DmOutcome) (kickOut : KickOutcome)
        (hw : Bool),
      (canSendDm defaultRateLimits rls m t.now).1.1 = false →
      (handleMemberJoin defaultRateLimits rls gst m g t snap dmOut kickOut
        hw).dmAttempted = false ∧
      (handleMemberJoin defaultRateLimits rls gst m g t snap dmOut kickOut
        hw).dmRecorded = false ∧
      (handleMemberJoin defaultRateLimits rls gst m g t snap dmOut kickOut
        hw).kickAttempted = true) := by
  refine ⟨?_, ?_, ?_⟩
  · intro hage he hnb hwin hcnt
    exact canSendDm_limit_hit defaultRateLimits st m now e hage he hnb hwin hcnt
  · intro st' b ts hst hb hts
    exact canSendMany_blocked m b ts st' e hst hb hts
  · intro rls gst g t snap dmOut kickOut hw h
    have hage : accountAgeDays t.now m.createdAt <
        defaultRateLimits.new_account_days := by
      by_contra hh
      push_neg at hh
      have hall : canSendDm defaultRateLimits rls m t.now =
          ((true, "Account old enough"), rls) := by
        unfold canSendDm
        rw [if_pos hh]
      rw [hall] at h
      simp at h
    have h90 : accountAgeDays t.now m.createdAt < 90 := by
      have h30 : defaultRateLimits.new_account_days = 30 := rfl
      omega
    unfold handleMemberJoin
    rw [if_pos h90]
    simp [h]

/-- Witness for C1: a 10-day-old account (`createdAt = 0`,
`now = 864000`) whose entry shows 2 recorded sends in the current window
is refused with "Rate limit exceeded"; afterwards, checks at two later
times inside the 24-hour block are both refused; and a join event under a
refusing tracker attempts no DM but still attempts the kick. -/
theorem C1_witness :
    (canSendDm defaultRateLimits
      (setEntry emptyRL 1
        { count := 2, last_reset := 863400, blocked_until := none,
          total_attempts := 2, first_attempt := some 863400 })
      { id := 1, createdAt := 0 } 864000).1 = (false, "Rate limit exceeded") ∧
    (∀ p ∈ (canSendMany defaultRateLimits
      (setEntry emptyRL 1
        { count := 2, last_reset := 863400, blocked_until := some 950400,
          total_attempts := 3, first_attempt := some 863400 })
      { id := 1, createdAt := 0 } [867600, 900000]).1, p.1 = false) ∧
    (handleMemberJoin defaultRateLimits
      (setEntry emptyRL 1
        { count := 2, last_reset := 863400, blocked_until := none,
          total_attempts := 2, first_attempt := some 863400 })
      (fun _ => none) { id := 1, createdAt := 0 } { id := 5, member_count := 10 }
      { now := 864000, hour := 0, day := "1970-01-11", week := "1970-W02" }
      { guild := { id := 5, member_count := 10 }, bot_count := 0,
        online_count := 0, voice_channels_active := 0,
        role_distribution := fun _ => 0, popular_channels := [] }
      DmOutcome.success KickOutcome.success true).dmAttempted = false ∧
    (handleMemberJoin defaultRateLimits
      (setEntry emptyRL 1
        { count := 2, last_reset := 863400, blocked_until := none,
          total_attempts := 2, first_attempt := some 863400 })
      (fun _ => none) { id := 1, createdAt := 0 } { id := 5, member_count := 10 }
      { now := 864000, hour := 0, day := "1970-01-11", week := "1970-W02" }
      { guild := { id := 5, member_count := 10 }, bot_count := 0,
        online_count := 0, voice_channels_active := 0,
        role_distribution := fun _ => 0, popular_channels := [] }
      DmOutcome.success KickOutcome.success true).kickAttempted = true := by
  refine ⟨?_, ?_, ?_, ?_⟩
  · have h := (C1_rate_limit_lockout
      (setEntry emptyRL 1
        { count := 2, last_reset := 863400, blocked_until := none,
          total_attempts := 2, first_attempt := some 863400 })
      { id := 1, createdAt := 0 } 864000
      { count := 2, last_reset := 863400, blocked_until := none,
        total_attempts := 2, first_attempt := some 863400 }).1
      (by decide) (by decide) (by decide) (by decide) (by decide)
    rw [h]
  · exact (C1_rate_limit_lockout emptyRL { id := 1, createdAt := 0 } 0
      { count := 2, last_reset := 863400, blocked_until := some 950400,
        total_attempts := 3, first_attempt := some 863400 }).2.1
      (setEntry emptyRL 1
        { count := 2, last_reset := 863400, blocked_until := some 950400,
          total_attempts := 3, first_attempt := some 863400 })
      950400 [867600, 900000] (by decide) (by decide) (by decide)
  · exact ((C1_rate_limit_lockout emptyRL { id := 1, createdAt := 0 } 0
      (defaultEntry 0)).2.2
      (setEntry emptyRL 1
        { count := 2, last_reset := 863400, blocked_until := none,
          total_attempts := 2, first_attempt := some 863400 })
      (fun _ => none) { id := 5, member_count := 10 }
      { now := 864000, hour := 0, day := "1970-01-11", week := "1970-W02" }
      { guild := { id := 5, member_count := 10 }, bot_count := 0,
        online_count := 0, voice_channels_active := 0,
        role_distribution := fun _ => 0, popular_channels := [] }
      DmOutcome.success KickOutcome.success true (by decide)).1
  · exact ((C1_rate_limit_lockout emptyRL { id := 1, createdAt := 0 } 0
      (defaultEntry 0)).2.2
      (setEntry emptyRL 1
        { count := 2, last_reset := 863400, blocked_until := none,
          total_attempts := 2, first_attempt := some 863400 })
      (fun _ => none) { id := 5, member_count := 10 }
      { now := 864000, hour := 0, day := "1970-01-11", week := "1970-W02" }
      { guild := { id := 5, member_count := 10 }, bot_count := 0,
        online_count := 0, voice_channels_active := 0,
        role_distribution := fun _ => 0, popular_channels := [] }
      DmOutcome.success KickOutcome.success true (by decide)).2.2

/-! ## C3 -/

/-- C3 counterexample: the blocked-check precedes the window reset, so a
call made after the window boundary while a block is still active does
return `false` due to the old block, and resets nothing: for a 10-day-old
account whose entry has `last_reset` 2 hours in the past (window expired),
`count = 2` and an active `blocked_until`, the call is refused and the
stored entry keeps `count = 2`, the old `last_reset` and the old
`blocked_until`. -/
theorem C3_counterexample :
    hourSecs ≤ (864000 : Int) - 856800 ∧
    accountAgeDays 864000 0 < defaultRateLimits.new_account_days ∧
    (canSendDm defaultRateLimits
      (setEntry emptyRL 1
        { count := 2, last_reset := 856800, blocked_until := some 867600,
          total_attempts := 5, first_attempt := some 0 })
      { id := 1, createdAt := 0 } 864000).1.1 = false ∧
    ((canSendDm defaultRateLimits
      (setEntry emptyRL 1
        { count := 2, last_reset := 856800, blocked_until := some 867600,
          total_attempts := 5, first_attempt := some 0 })
      { id := 1, createdAt := 0 } 864000).2 1).map (fun x => x.count) = some 2 ∧
    ((canSendDm defaultRateLimits
      (setEntry emptyRL 1
        { count := 2, last_reset := 856800, blocked_until := some 867600,
          total_attempts := 5, first_attempt := some 0 })
      { id := 1, createdAt := 0 } 864000).2 1).map (fun x => x.blocked_until) =
        some (some 867600) ∧
    ((canSendDm defaultRateLimits
      (setEntry emptyRL 1
        { count := 2, last_reset := 856800, blocked_until := some 867600,
          total_attempts := 5, first_attempt := some 0 })
      { id := 1, createdAt := 0 } 864000).2 1).map (fun x => x.last_reset) =
        some 856800 := by
  decide

/-- C3 amended: for an under-threshold caller with NO currently active
block (`blocked_until` unset or already elapsed), a check made at least
one hour after `last_reset` resets `count` to 0, restarts the window at
`now`, clears `blocked_until`, and (whenever `max_dms_per_hour > 0`)
returns `(true, "Within limits")`; an entry whose block is still active is
refused first and not reset. -/
theorem C3_window_reset (rl : RateLimits) (st : RLState) (m : Member)
    (now : Int) (e : RateLimitEntry)
    (hage : accountAgeDays now m.createdAt < rl.new_account_days)
    (he : (st m.id).getD (defaultEntry now) = e)
    (hnb : blockedActive e.blocked_until now = false)
    (hwin : hourSecs ≤ now - e.last_reset)
    (hmax : 0 < rl.max_dms_per_hour) :
    canSendDm rl st m now =
      ((true, "Within limits"),
        setEntry st m.id
          { count := 0, last_reset := now, blocked_until := none,
            total_attempts := e.total_attempts + 1,
            first_attempt := if e.first_attempt = none then some now
              else e.first_attempt }) := by
  unfold canSendDm
  rw [if_neg (not_le.mpr hage), he]
  by_cases hfa : e.first_attempt = none <;>
    simp [hfa, hnb, hwin, not_le.mpr hmax]

/-- Witness for C3 amended: a 10-day-old account with an expired block
(`blocked_until = 860000 < now = 864000`) and an expired window gets
`(true, "Within limits")` with a fully reset entry. -/
theorem C3_witness :
    canSendDm defaultRateLimits
      (setEntry emptyRL 1
        { count := 2, last_reset := 856800, blocked_until := some 860000,
          total_attempts := 5, first_attempt := some 0 })
      { id := 1, createdAt := 0 } 864000 =
      ((true, "Within limits"),
        setEntry
          (setEntry emptyRL 1
            { count := 2, last_reset := 856800, blocked_until := some 860000,
              total_attempts := 5, first_attempt := some 0 })
          1
          { count := 0, last_reset := 864000, blocked_until := none,
            total_attempts := 6, first_attempt := some 0 }) :=
  C3_window_reset defaultRateLimits
    (setEntry emptyRL 1
      { count := 2, last_reset := 856800, blocked_until := some 860000,
        total_attempts := 5, first_attempt := some 0 })
    { id := 1, createdAt := 0 } 864000
    { count := 2, last_reset := 856800, blocked_until := some 860000,
      total_attempts := 5, first_attempt := some 0 }
    (by decide) (by decide) (by decide) (by decide) (by decide)

/-! ## C10 -/

/-- C10: the check `can_send_dm` is not a pure query.  For every caller under the
`new_account_days` threshold, the call stores an entry whose
`total_attempts` is one more than before (the counter counts rate-limit
checks, not recorded sends) and whose `first_attempt` is set on the
first-ever check — in every branch, including refusals; for a caller at
or over the threshold the tracker state is returned untouched. -/
theorem C10_check_mutates_entry (rl : RateLimits) (st : RLState)
    (m : Member) (now : Int) :
    (accountAgeDays now m.createdAt < rl.new_account_days →
      ∃ e', (canSendDm rl st m now).2 m.id = some e' ∧
        e'.total_attempts =
          ((st m.id).getD (defaultEntry now)).total_attempts + 1 ∧
        e'.first_attempt =
          (if ((st m.id).getD (defaultEntry now)).first_attempt = none
            then some now
            else ((st m.id).getD (defaultEntry now)).first_attempt)) ∧
    (rl.new_account_days ≤ accountAgeDays now m.createdAt →
      canSendDm rl st m now = ((true, "Account old enough"), st)) := by
  constructor
  · intro hage
    unfold canSendDm
    rw [if_neg (not_le.mpr hage)]
    by_cases h2 : ((st m.id).getD (defaultEntry now)).first_attempt = none <;>
    by_cases h3 : blockedActive
      ((st m.id).getD (defaultEntry now)).blocked_until now = true <;>
    by_cases h4 : hourSecs ≤
      now - ((st m.id).getD (defaultEntry now)).last_reset <;>
    simp [h2, h3, h4] <;>
    (try split) <;>
    exact ⟨_, setEntry_self st m.id _, by first | rfl | simp [h2],
      by first | rfl | simp [h2]⟩
  · intro hold
    unfold canSendDm
    rw [if_pos hold]

/-- Witness for C10: a first-ever check for a brand-new account (age 0)
stores an entry with `total_attempts = 0 + 1` and `first_attempt` set to
the call time; a check by a 40-day-old account returns the tracker
unchanged. -/
theorem C10_witness :
    (∃ e', (canSendDm defaultRateLimits emptyRL
        { id := 1, createdAt := 0 } 5).2 1 = some e' ∧
      e'.total_attempts = ((emptyRL 1).getD (defaultEntry 5)).total_attempts + 1 ∧
      e'.first_attempt =
        (if ((emptyRL 1).getD (defaultEntry 5)).first_attempt = none
          then some 5
          else ((emptyRL 1).getD (defaultEntry 5)).first_attempt)) ∧
    canSendDm defaultRateLimits emptyRL { id := 2, createdAt := 0 } 3456000 =
      ((true, "Account old enough"), emptyRL) :=
  ⟨(C10_check_mutates_entry defaultRateLimits emptyRL
      { id := 1, createdAt := 0 } 5).1 (by decide),
   (C10_check_mutates_entry defaultRateLimits emptyRL
      { id := 2, createdAt := 0 } 3456000).2 (by decide)⟩

/-! ## C5 -/

/-- C5: on the reject path (account younger than 90 days), the kick is
always attempted — for every rate-limit decision, every DM outcome
(success, `Forbidden`, other error) and every kick outcome — with a
reason string embedding the account age in days. -/
theorem C5_kick_always_attempted (rl : RateLimits) (rls : RLState)
    (gst : GState) (m : Member) (g : Guild) (t : TimeInfo)
    (snap : GuildSnapshot) (dmOut : DmOutcome) (kickOut : KickOutcome)
    (hw : Bool) (h : accountAgeDays t.now m.createdAt < 90) :
    (handleMemberJoin rl rls gst m g t snap dmOut kickOut hw).kickAttempted
      = true ∧
    (handleMemberJoin rl rls gst m g t snap dmOut kickOut hw).kickReason =
      some ("Account too new (" ++ toString (accountAgeDays t.now m.createdAt)
        ++ " days old)") := by
  unfold handleMemberJoin
  rw [if_pos h]
  exact ⟨rfl, rfl⟩

/-- Witness for C5: an account created 10 days before the join
(`createdAt = 0`, `now = 864000`) whose DM raises `Forbidden` is still
kicked, with reason "Account too new (10 days old)". -/
theorem C5_witness :
    accountAgeDays 864000 0 < 90 ∧
    (handleMemberJoin defaultRateLimits emptyRL (fun _ => none)
      { id := 1, createdAt := 0 } { id := 5, member_count := 10 }
      { now := 864000, hour := 0, day := "1970-01-11", week := "1970-W02" }
      { guild := { id := 5, member_count := 10 }, bot_count := 0,
        online_count := 0, voice_channels_active := 0,
        role_distribution := fun _ => 0, popular_channels := [] }
      DmOutcome.forbidden KickOutcome.success true).kickAttempted = true ∧
    (handleMemberJoin defaultRateLimits emptyRL (fun _ => none)
      { id := 1, createdAt := 0 } { id := 5, member_count := 10 }
      { now := 864000, hour := 0, day := "1970-01-11", week := "1970-W02" }
      { guild := { id := 5, member_count := 10 }, bot_count := 0,
        online_count := 0, voice_channels_active := 0,
        role_distribution := fun _ => 0, popular_channels := [] }
      DmOutcome.forbidden KickOutcome.success true).kickReason =
      some "Account too new (10 days old)" := by
  refine ⟨by decide, ?_, ?_⟩
  · exact (C5_kick_always_attempted defaultRateLimits emptyRL (fun _ => none)
      { id := 1, createdAt := 0 } { id := 5, member_count := 10 }
      { now := 864000, hour := 0, day := "1970-01-11", week := "1970-W02" }
      { guild := { id := 5, member_count := 10 }, bot_count := 0,
        online_count := 0, voice_channels_active := 0,
        role_distribution := fun _ => 0, popular_channels := [] }
      DmOutcome.forbidden KickOutcome.success true (by decide)).1
  · rw [(C5_kick_always_attempted defaultRateLimits emptyRL (fun _ => none)
      { id := 1, createdAt := 0 } { id := 5, member_count := 10 }
      { now := 864000, hour := 0, day := "1970-01-11", week := "1970-W02" }
      { guild := { id := 5, member_count := 10 }, bot_count := 0,
        online_count := 0, voice_channels_active := 0,
        role_distribution := fun _ => 0, popular_channels := [] }
      DmOutcome.forbidden KickOutcome.success true (by decide)).2]
    rfl

/-! ## C9 -/

/-- C9 counterexample: a 40-day-old account (in the 30–89 day gap between
the rate limiter's threshold and the gatekeeper's 90-day threshold) joins:
it is DMed and kicked, `can_send_dm` applies no rate limiting — yet a
rate-limit entry counter IS updated: after the successful DM,
`record_dm_sent` leaves the user's entry with `count = 1`, refuting "no
rate-limit entry counters updated". -/
theorem C9_counterexample :
    defaultRateLimits.new_account_days ≤ accountAgeDays 3456000 0 ∧
    accountAgeDays 3456000 0 < 90 ∧
    (handleMemberJoin defaultRateLimits emptyRL (fun _ => none)
      { id := 1, createdAt := 0 } { id := 5, member_count := 10 }
      { now := 3456000, hour := 0, day := "1970-02-10", week := "1970-W06" }
      { guild := { id := 5, member_count := 10 }, bot_count := 0,
        online_count := 0, voice_channels_active := 0,
        role_distribution := fun _ => 0, popular_channels := [] }
      DmOutcome.success KickOutcome.success true).dmAttempted = true ∧
    (handleMemberJoin defaultRateLimits emptyRL (fun _ => none)
      { id := 1, createdAt := 0 } { id := 5, member_count := 10 }
      { now := 3456000, hour := 0, day := "1970-02-10", week := "1970-W06" }
      { guild := { id := 5, member_count := 10 }, bot_count := 0,
        online_count := 0, voice_channels_active := 0,
        role_distribution := fun _ => 0, popular_channels := [] }
      DmOutcome.success KickOutcome.success true).kickAttempted = true ∧
    emptyRL 1 = none ∧
    ((handleMemberJoin defaultRateLimits emptyRL (fun _ => none)
      { id := 1, createdAt := 0 } { id := 5, member_count := 10 }
      { now := 3456000, hour := 0, day := "1970-02-10", week := "1970-W06" }
      { guild := { id := 5, member_count := 10 }, bot_count := 0,
        online_count := 0, voice_channels_active := 0,
        role_distribution := fun _ => 0, popular_channels := [] }
      DmOutcome.success KickOutcome.success true).rlState 1).map
        (fun x => x.count) = some 1 := by
  decide

/-- C9 amended: a member whose account age is in `[new_account_days, 90)`
takes the reject path on every join — `can_send_dm` always answers
`(true, "Account old enough")` without reading or writing the entry, so
no rate limiting or blocking is ever applied and `total_attempts` /
`first_attempt` are never touched — the member is DMed and kicked each
time; but when the DM succeeds, `record_dm_sent` still increments the
entry's `count`. -/
theorem C9_age_gap_always_dm_and_kick (rls : RLState) (gst : GState)
    (m : Member) (g : Guild) (t : TimeInfo) (snap : GuildSnapshot)
    (dmOut : DmOutcome) (kickOut : KickOutcome) (hw : Bool)
    (h30 : defaultRateLimits.new_account_days ≤ accountAgeDays t.now m.createdAt)
    (h90 : accountAgeDays t.now m.createdAt < 90) :
    canSendDm defaultRateLimits rls m t.now =
      ((true, "Account old enough"), rls) ∧
    (handleMemberJoin defaultRateLimits rls gst m g t snap dmOut kickOut
      hw).dmAttempted = true ∧
    (handleMemberJoin defaultRateLimits rls gst m g t snap dmOut kickOut
      hw).kickAttempted = true ∧
    (handleMemberJoin defaultRateLimits rls gst m g t snap dmOut kickOut
      hw).rlState =
      (if dmOut = DmOutcome.success then recordDmSent rls m t.now else rls) := by
  have hall : canSendDm defaultRateLimits rls m t.now =
      ((true, "Account old enough"), rls) := by
    unfold canSendDm
    rw [if_pos h30]
  refine ⟨hall, ?_, ?_, ?_⟩ <;>
    (unfold handleMemberJoin
     rw [if_pos h90, hall]) <;>
    cases dmOut <;> simp

/-- Witness for C9 amended: a 40-day-old account with a failing DM
(`Forbidden`) is still DM-attempted and kicked, and the tracker is
returned unchanged. -/
theorem C9_witness :
    canSendDm defaultRateLimits emptyRL { id := 1, createdAt := 0 } 3456000 =
      ((true, "Account old enough"), emptyRL) ∧
    (handleMemberJoin defaultRateLimits emptyRL (fun _ => none)
      { id := 1, createdAt := 0 } { id := 5, member_count := 10 }
      { now := 3456000, hour := 0, day := "1970-02-10", week := "1970-W06" }
      { guild := { id := 5, member_count := 10 }, bot_count := 0,
        online_count := 0, voice_channels_active := 0,
        role_distribution := fun _ => 0, popular_channels := [] }
      DmOutcome.forbidden KickOutcome.success true).dmAttempted = true ∧
    (handleMemberJoin defaultRateLimits emptyRL (fun _ => none)
      { id := 1, createdAt := 0 } { id := 5, member_count := 10 }
      { now := 3456000, hour := 0, day := "1970-02-10", week := "1970-W06" }
      { guild := { id := 5, member_count := 10 }, bot_count := 0,
        online_count := 0, voice_channels_active := 0,
        role_distribution := fun _ => 0, popular_channels := [] }
      DmOutcome.forbidden KickOutcome.success true).kickAttempted = true := by
  have h := C9_age_gap_always_dm_and_kick emptyRL (fun _ => none)
    { id := 1, createdAt := 0 } { id := 5, member_count := 10 }
    { now := 3456000, hour := 0, day := "1970-02-10", week := "1970-W06" }
    { guild := { id := 5, member_count := 10 }, bot_count := 0,
      online_count := 0, voice_channels_active := 0,
      role_distribution := fun _ => 0, popular_channels := [] }
    DmOutcome.forbidden KickOutcome.success true (by decide) (by decide)
  exact ⟨h.1, h.2.1, h.2.2.1⟩

/-! ## C7 -/

/-- C7: for any guild and any fixed hour/day/week bucket, the
join-pattern histograms never decrease under `update_guild_metrics`
(whatever the event type, which only ever increments the joining hour's
buckets) nor under `initialize_guild_cache` (which resets today's
counters and the security metrics but leaves `join_patterns` untouched). -/
theorem C7_join_patterns_monotone (rl : RateLimits) (gst : GState)
    (g : Guild) (ty : String) (t : TimeInfo) (mem : Option Member)
    (snap : GuildSnapshot) (gid : Int) (h : Nat) (d w : String) :
    (((gst gid).getD defaultGuildMetrics).join_patterns_hourly h ≤
      ((updateGuildMetrics rl gst g ty t mem gid).getD
        defaultGuildMetrics).join_patterns_hourly h) ∧
    (((gst gid).getD defaultGuildMetrics).join_patterns_daily d ≤
      ((updateGuildMetrics rl gst g ty t mem gid).getD
        defaultGuildMetrics).join_patterns_daily d) ∧
    (((gst gid).getD defaultGuildMetrics).join_patterns_weekly w ≤
      ((updateGuildMetrics rl gst g ty t mem gid).getD
        defaultGuildMetrics).join_patterns_weekly w) ∧
    (((initializeGuildCache gst snap t gid).getD
        defaultGuildMetrics).join_patterns_hourly h =
      ((gst gid).getD defaultGuildMetrics).join_patterns_hourly h) ∧
    (((initializeGuildCache gst snap t gid).getD
        defaultGuildMetrics).join_patterns_daily d =
      ((gst gid).getD defaultGuildMetrics).join_patterns_daily d) ∧
    (((initializeGuildCache gst snap t gid).getD
        defaultGuildMetrics).join_patterns_weekly w =
      ((gst gid).getD defaultGuildMetrics).join_patterns_weekly w) := by
  have hbucket : ∀ (a : Nat) (key bkt : Nat), a ≤ if bkt = key then a + 1 else a := by
    intro a key bkt
    split <;> omega
  have hbucketS : ∀ (a : Nat) (key bkt : String), a ≤ if bkt = key then a + 1 else a := by
    intro a key bkt
    split <;> omega
  refine ⟨?_, ?_, ?_, ?_, ?_, ?_⟩
  · by_cases hg : gid = g.id
    · simp only [updateGuildMetrics, setGuild, hg, if_pos]
      repeat' split
      all_goals simp [hbucket, hbucketS]
    · simp [updateGuildMetrics, setGuild, hg]
  · by_cases hg : gid = g.id
    · simp only [updateGuildMetrics, setGuild, hg, if_pos]
      repeat' split
      all_goals simp [hbucket, hbucketS]
    · simp [updateGuildMetrics, setGuild, hg]
  · by_cases hg : gid = g.id
    · simp only [updateGuildMetrics, setGuild, hg, if_pos]
      repeat' split
      all_goals simp [hbucket, hbucketS]
    · simp [updateGuildMetrics, setGuild, hg]
  · by_cases hs : gid = snap.guild.id <;>
      simp [initializeGuildCache, setGuild, hs]
  · by_cases hs : gid = snap.guild.id <;>
      simp [initializeGuildCache, setGuild, hs]
  · by_cases hs : gid = snap.guild.id <;>
      simp [initializeGuildCache, setGuild, hs]

/-! ## C8 -/

/-- C8 counterexample: an unrecognized event type does NOT leave the
guild's in-memory metrics state entirely unchanged — `last_activity` is
overwritten with the current time on every call (and a default entry
would be created for a guild with none): here an `update_guild_metrics`
call with type "dm_sent" at time 99 changes `last_activity` from
`some 7` to `some 99`. -/
theorem C8_counterexample :
    ((updateGuildMetrics defaultRateLimits
      (fun gid => if gid = 5 then
        some { defaultGuildMetrics with last_activity := some 7 } else none)
      { id := 5, member_count := 3 } "dm_sent"
      { now := 99, hour := 0, day := "d", week := "w" } none) 5).map
        (fun cd => cd.last_activity) = some (some 99) ∧
    ((fun gid => if gid = 5 then
        some { defaultGuildMetrics with last_activity := some 7 } else none)
      (5 : Int)).map (fun cd => cd.last_activity) = some (some 7) := by
  constructor
  · simp [updateGuildMetrics, setGuild]
  · simp

/-- C8 amended: for an event type outside
`{member_join, member_remove, member_kick}` (which includes
"voice_state_change", for which no branch exists, as well as "dm_sent"
and all unrecognized types), `update_guild_metrics` raises no error and
leaves every counter, histogram and security metric unchanged, but still
stores the entry with `last_activity` set to the current time — creating
a default entry for the guild if none existed. -/
theorem C8_unrecognized_event_only_last_activity (rl : RateLimits)
    (gst : GState) (g : Guild) (ty : String) (t : TimeInfo)
    (mem : Option Member)
    (h1 : ty ≠ "member_join") (h2 : ty ≠ "member_remove")
    (h3 : ty ≠ "member_kick") :
    updateGuildMetrics rl gst g ty t mem =
      setGuild gst g.id
        { (gst g.id).getD defaultGuildMetrics with
          last_activity := some t.now } := by
  unfold updateGuildMetrics
  simp only [if_neg h1, if_neg h2, if_neg h3]

/-- Witness for C8 amended at the concrete event type "dm_sent" (the one
`record_dm_sent` emits). -/
theorem C8_witness :
    updateGuildMetrics defaultRateLimits
      (fun gid => if gid = 5 then
        some { defaultGuildMetrics with last_activity := some 7 } else none)
      { id := 5, member_count := 3 } "dm_sent"
      { now := 99, hour := 0, day := "d", week := "w" } none =
      setGuild
        (fun gid => if gid = 5 then
          some { defaultGuildMetrics with last_activity := some 7 } else none)
        5
        { ((fun gid => if gid = 5 then
            some { defaultGuildMetrics with last_activity := some 7 } else none)
              (5 : Int)).getD defaultGuildMetrics with
          last_activity := some 99 } :=
  C8_unrecognized_event_only_last_activity defaultRateLimits
    (fun gid => if gid = 5 then
      some { defaultGuildMetrics with last_activity := some 7 } else none)
    { id := 5, member_count := 3 } "dm_sent"
    { now := 99, hour := 0, day := "d", week := "w" } none
    (by decide) (by decide) (by decide)

end Codex
